import Mathlib

/-!
Verification development for `update_charts.py`: a script that fetches
iDigBio usage / ingestion statistics over HTTP and reshapes the JSON
response into tabular data (pandas) before rendering charts.

The embedding below models:
  * the JSON "dates" mapping of the API response (assoc lists, since JSON
    objects are finite string-keyed maps),
  * `pd.to_datetime` on ISO date keys,
  * the three fetchers (`fetch_monthly_usage`, `fetch_ingest_stats`,
    `fetch_use_stats`), with `raise_for_status` modelled as an `Except`
    error on a 4xx/5xx status,
  * the reshaping steps of `plot_ratios` (pivot + fillna(0) + clamped
    ratio columns) and `plot_annual_summary` (metric filter + year/metric
    pivot_table with sum),
  * the sequential `main` flow, with the chart renderers reduced to their
    fallible column accesses.

DataFrame cells that pandas would hold as NaN (a dict row lacking a key)
are modelled as an absent assoc-list entry, i.e. `List.lookup` returning
`none`.
-/

namespace UpdateCharts

/-- A parsed pandas timestamp (year, month, day), as produced by
`pd.to_datetime` on the ISO date keys of the API response. -/
structure Timestamp where
  year : Nat
  month : Nat
  day : Nat
deriving DecidableEq

/-- Numeric key realising the temporal order of parsed timestamps
(months and days of real dates are below 100, so the key order is the
calendar order pandas sorts by). -/
def Timestamp.key (t : Timestamp) : Nat :=
  t.year * 10000 + t.month * 100 + t.day

/-- Splitting a character list on the dash separators of an ISO date
string (the behaviour of `splitOn "-"` on the date keys). -/
def splitDash : List Char → List Char → List (List Char)
  | [], acc => [acc.reverse]
  | c :: cs, acc =>
    if c = '-' then acc.reverse :: splitDash cs [] else splitDash cs (c :: acc)

/-- Decimal parsing of one date component (the behaviour of `toNat?`):
all characters must be digits and at least one must be present. -/
def parseNatDigits (cs : List Char) : Option Nat :=
  if cs.isEmpty then none
  else cs.foldl (fun acc c =>
    match acc with
    | none => none
    | some n => if c.isDigit then some (n * 10 + (c.toNat - 48)) else none) (some 0)

/-- Models `pd.to_datetime` on `yyyy-mm-dd` date keys. A malformed string,
which pandas rejects with an exception, is mapped to the zero timestamp;
the claims below only concern well-formed responses. -/
def to_datetime (s : String) : Timestamp :=
  match (splitDash s.toList []).map parseNatDigits with
  | [some y, some m, some d] => ⟨y, m, d⟩
  | _ => ⟨0, 0, 0⟩

instance {ε α : Type} [DecidableEq ε] [DecidableEq α] : DecidableEq (Except ε α) := fun a b =>
  match a, b with
  | .error e, .error f =>
    if h : e = f then .isTrue (h ▸ rfl) else .isFalse fun hh => h (Except.error.inj hh)
  | .error _, .ok _ => .isFalse fun hh => Except.noConfusion hh
  | .ok _, .error _ => .isFalse fun hh => Except.noConfusion hh
  | .ok x, .ok y =>
    if h : x = y then .isTrue (h ▸ rfl) else .isFalse fun hh => h (Except.ok.inj hh)

/-- Per-recordset metric mapping of one date: metric name -> integer count
(one JSON object). -/
abbrev MetricMap := List (String × Int)

/-- One date entry of the response: recordset uuid -> metric mapping. -/
abbrev RecMap := List (String × MetricMap)

/-- An HTTP response from the statistics API: status code plus the parsed
"dates" mapping of the JSON body (`r.json()["dates"]`). -/
structure Response where
  status : Nat
  dates : List (String × RecMap)

/-- `requests.Response.raise_for_status()`: raises `HTTPError` exactly on a
4xx/5xx status (400 to 599), immediately and with no retry; on any other
status it returns normally. -/
def raise_for_status (r : Response) : Except String Unit :=
  if 400 ≤ r.status ∧ r.status < 600 then .error "HTTPError" else .ok ()

/-- One row of the monthly wide table: the "Date" cell plus the metric
cells copied from the date's recordset mapping (`row.update(metrics)`).
A metric missing from the mapping is absent from the row, which pandas
renders as NaN in the assembled frame. -/
structure WideRow where
  Date : Timestamp
  metrics : MetricMap
deriving DecidableEq

/-- Row order used by `sort_values("Date")`: ascending parsed date. -/
def rowLe (a b : WideRow) : Prop := a.Date.key ≤ b.Date.key

instance : DecidableRel rowLe := fun a b => Nat.decLe a.Date.key b.Date.key

instance : IsTotal WideRow rowLe := ⟨fun a b => Nat.le_total a.Date.key b.Date.key⟩

instance : IsTrans WideRow rowLe := ⟨fun _ _ _ => Nat.le_trans⟩

/-- The row list built by the loop of `fetch_monthly_usage` (lines 28-33):
one dict per date key, holding the parsed date and the metrics of
`recs.get(recordset, {})`. -/
def monthlyRows (recordset : String) (dates : List (String × RecMap)) : List WideRow :=
  dates.map fun e => ⟨to_datetime e.1, (e.2.lookup recordset).getD []⟩

/-- `fetch_monthly_usage` (lines 17-35): POST then `raise_for_status`, then
one wide row per entry of the "dates" mapping, returned as
`pd.DataFrame(rows).sort_values("Date")`. On an empty "dates" mapping the
frame `pd.DataFrame([])` has no columns at all, so `sort_values("Date")`
raises `KeyError`. The `min_date` argument only parameterises the HTTP
request, which the explicit `resp` argument stands for. -/
def fetch_monthly_usage (recordset min_date : String) (resp : Response) :
    Except String (List WideRow) :=
  match raise_for_status resp with
  | .error e => .error e
  | .ok _ =>
    let rows := monthlyRows recordset resp.dates
    if rows.isEmpty then .error "KeyError"
    else .ok (List.insertionSort rowLe rows)

/-- The metric columns of a wide frame: the union of the rows' metric keys
(besides "Date"), as `pd.DataFrame` forms columns from the dict keys. -/
def tableColumns (t : List WideRow) : List String :=
  (t.flatMap fun r => r.metrics.map Prod.fst).dedup

/-- One row of a long table: (Date, Metric, Count). -/
structure LongRow where
  Date : Timestamp
  Metric : String
  Count : Int
deriving DecidableEq

/-- `fetch_ingest_stats` (lines 77-100): GET then `raise_for_status`; one
long row per date whose recordset mapping contains the `records` metric,
with Metric literally `records`; other dates contribute nothing. -/
def fetch_ingest_stats (recordset min_date max_date : String) (resp : Response) :
    Except String (List LongRow) :=
  match raise_for_status resp with
  | .error e => .error e
  | .ok _ =>
    .ok (resp.dates.flatMap fun e =>
      let metrics := (e.2.lookup recordset).getD []
      match metrics.lookup "records" with
      | some c => [⟨to_datetime e.1, "records", c⟩]
      | none => [])

/-- `fetch_use_stats` (lines 119-140): GET then `raise_for_status`; one
long row per (date, metric) item of `rec.get(recordset, {})`; a date whose
mapping lacks the recordset key contributes no row. -/
def fetch_use_stats (recordset min_date max_date : String) (resp : Response) :
    Except String (List LongRow) :=
  match raise_for_status resp with
  | .error e => .error e
  | .ok _ =>
    .ok (resp.dates.flatMap fun e =>
      ((e.2.lookup recordset).getD []).map fun q => ⟨to_datetime e.1, q.1, q.2⟩)

/-- Line 105, `df[df["Metric"] == "records"]` of `plot_ingest_stats`. -/
def plot_ingest_filtered (df : List LongRow) : List LongRow :=
  df.filter fun r => r.Metric == "records"

/-- The distinct dates of a long table, the pivot index. -/
def pivotIndex (df : List LongRow) : List Timestamp :=
  (df.map LongRow.Date).dedup

/-- The distinct metric names of a long table, the pivot columns. -/
def pivotColumns (df : List LongRow) : List String :=
  (df.map LongRow.Metric).dedup

/-- The Count of the (first) row with the given date and metric, `none`
when no such row exists (a NaN cell of the raw pivot). -/
def cellValue (df : List LongRow) (d : Timestamp) (m : String) : Option Int :=
  (df.find? fun r => r.Date == d && r.Metric == m).map LongRow.Count

/-- One row of the pivoted wide frame after `fillna(0)`. -/
structure PivotRow where
  Date : Timestamp
  cells : List (String × Int)
deriving DecidableEq

/-- The pivoted, zero-filled row of one date: one cell per pivot column,
`fillna(0)` turning an absent (Date, Metric) pair into 0. -/
def mkPivotRow (df : List LongRow) (d : Timestamp) : PivotRow :=
  ⟨d, (pivotColumns df).map fun m => (m, (cellValue df d m).getD 0)⟩

/-- Line 144, `df.pivot(index="Date", columns="Metric", values="Count").fillna(0)`.
On a frame with no columns (an empty row list) `pivot` raises `KeyError`;
on a duplicate (Date, Metric) pair it raises
`ValueError: Index contains duplicate entries, cannot reshape`; otherwise
it yields one row per distinct date with one cell per distinct metric,
absent cells zero-filled. pandas additionally sorts the pivot index; none
of the verified properties depend on the row order, so rows appear here in
first-occurrence order. -/
def pivot_fillna0 (df : List LongRow) : Except String (List PivotRow) :=
  if df.isEmpty then .error "KeyError"
  else if (df.map fun r => (r.Date, r.Metric)).Nodup then
    .ok ((pivotIndex df).map (mkPivotRow df))
  else .error "ValueError: Index contains duplicate entries, cannot reshape"

/-- `.replace(0, 1)` on a denominator column, elementwise: the deliberate
clamp avoiding division by zero. -/
def replaceZeroWithOne (x : Int) : Int := if x = 0 then 1 else x

/-- Division as pandas would have to perform it without the clamp: `none`
models a division-by-zero error. -/
def checkedDiv (a b : Int) : Option Rat :=
  if b = 0 then none else some ((a : Rat) / (b : Rat))

/-- Cell access on a pivoted, zero-filled row (`w[column]` at one date). -/
def wcell (row : PivotRow) (c : String) : Int :=
  (row.cells.lookup c).getD 0

/-- One row of the three derived ratio columns added by `plot_ratios`
(lines 146-148): `dl` models the "dlRatio" column
(download / download_count clamped), `sd` models "sdRatio"
(download / search_count clamped) and `vs` models "vsRatio"
(viewed_records / search_count clamped). -/
structure RatioRow where
  Date : Timestamp
  dl : Rat
  sd : Rat
  vs : Rat
deriving DecidableEq

/-- The three clamped ratio cells of one pivoted row; `none` would signal a
division-by-zero error, which the clamp is there to rule out. -/
def rowRatios (row : PivotRow) : Option RatioRow :=
  match checkedDiv (wcell row "download") (replaceZeroWithOne (wcell row "download_count")),
        checkedDiv (wcell row "download") (replaceZeroWithOne (wcell row "search_count")),
        checkedDiv (wcell row "viewed_records") (replaceZeroWithOne (wcell row "search_count")) with
  | some a, some b, some c => some ⟨row.Date, a, b, c⟩
  | _, _, _ => none

/-- The ratio columns over all pivoted rows, elementwise as pandas computes
a column; a division-by-zero at any row would surface as an error. -/
def ratioRows : List PivotRow → Except String (List RatioRow)
  | [] => .ok []
  | row :: rest =>
    match rowRatios row with
    | none => .error "ZeroDivisionError"
    | some r =>
      match ratioRows rest with
      | .error e => .error e
      | .ok rs => .ok (r :: rs)

/-- The computation part of `plot_ratios` (lines 144-148): pivot + fillna,
then the three ratio columns. `w["download"]`, `w["download_count"]`,
`w["search_count"]` and `w["viewed_records"]` raise `KeyError` when the
metric never occurs in the long table, since `fillna` only fills cells of
existing columns. -/
def plot_ratios_compute (df : List LongRow) : Except String (List RatioRow) :=
  match pivot_fillna0 df with
  | .error e => .error e
  | .ok w =>
    if "download" ∈ pivotColumns df ∧ "download_count" ∈ pivotColumns df ∧
        "search_count" ∈ pivotColumns df ∧ "viewed_records" ∈ pivotColumns df then
      ratioRows w
    else .error "KeyError"

/-- The fixed, hand-chosen metric list of `plot_annual_summary` (line 174). -/
def summaryMetrics : List String := ["search", "download", "seen", "viewed_records"]

/-- Line 175, `df2[df2['Metric'].isin(metrics)]`. -/
def summaryFiltered (df : List LongRow) : List LongRow :=
  df.filter fun r => summaryMetrics.contains r.Metric

/-- One cell of `pivot_table(index='Year', columns='Metric', values='Count',
aggfunc='sum').fillna(0)` (lines 176-178): the sum of Count over the
filtered rows of the given year and metric. -/
def annual_summary_cell (df : List LongRow) (y : Nat) (m : String) : Int :=
  (((summaryFiltered df).filter fun r => r.Date.year == y && r.Metric == m).map
    LongRow.Count).sum

/-- Melting a pivoted, zero-filled wide frame back to long form: one row
per (row, cell) pair. -/
def flattenWide (w : List PivotRow) : List LongRow :=
  w.flatMap fun row => row.cells.map fun c => ⟨row.Date, c.1, c.2⟩

/-- The total Count a long table carries for one (date, metric) pair. -/
def totalCount (df : List LongRow) (d : Timestamp) (m : String) : Int :=
  ((df.filter fun r => r.Date == d && r.Metric == m).map LongRow.Count).sum

/-- The fallible paths of `plot_usage_bar` (lines 43-60): `df['search']`
and `df['download']` raise `KeyError` when the metric never occurred in
the fetched months; with both columns present, a month whose row lacks one
of the two values makes `df[['search','download']].values.max()` NaN, and
`ax.set_ylim(1, NaN)` then raises `ValueError`. -/
def plot_usage_bar_check (df : List WideRow) : Except String Unit :=
  if "search" ∈ tableColumns df ∧ "download" ∈ tableColumns df then
    if df.all fun r => (r.metrics.lookup "search").isSome &&
        (r.metrics.lookup "download").isSome then .ok ()
    else .error "ValueError"
  else .error "KeyError"

/-- The fallible column access of `plot_ingest_stats` (line 105):
`df["Metric"]` raises `KeyError` on an empty frame, which has no columns. -/
def plot_ingest_stats_check (df : List LongRow) : Except String Unit :=
  if df.isEmpty then .error "KeyError" else .ok ()

/-- The fallible part of `plot_ratios`: its reshaping computation. -/
def plot_ratios_check (df : List LongRow) : Except String Unit :=
  match plot_ratios_compute df with
  | .error e => .error e
  | .ok _ => .ok ()

/-- The fallible accesses of `plot_annual_summary` (lines 171-193):
`df2['Date']` raises `KeyError` on an empty frame, and `pivot[metric]`
raises `KeyError` for each of the four fixed metrics missing from the
table. -/
def plot_annual_summary_check (df : List LongRow) : Except String Unit :=
  if df.isEmpty then .error "KeyError"
  else if summaryMetrics.all fun m => (df.map LongRow.Metric).contains m then .ok ()
  else .error "KeyError"

/-- The outcome of one run of `main`: how many HTTP requests were issued
(one per fetcher entered), which chart files were written, and the error
that aborted the run, if any. -/
structure RunResult where
  requests : Nat
  charts : List String
  err : Option String
deriving DecidableEq

/-- The chart files a fully successful run writes, in order (lines 246-270). -/
def allCharts : List String :=
  ["usage_monthly.png", "ingest_metrics.png", "usage_ratios.png", "annual_summary.png"]

/-- The sequential body of `main` (lines 246-270): monthly fetch + bar
chart, ingestion fetch + line chart, usage fetch + ratio chart + annual
summary, strictly in order, each step aborting the run on error. The three
`Response` arguments are the single HTTP exchange of each fetcher, in
program order; `requests` counts the fetchers entered. -/
def main (recordset : String) (r1 r2 r3 : Response) : RunResult :=
  match fetch_monthly_usage recordset "" r1 with
  | .error e => ⟨1, [], some e⟩
  | .ok dfMonth =>
    match plot_usage_bar_check dfMonth with
    | .error e => ⟨1, [], some e⟩
    | .ok _ =>
      match fetch_ingest_stats recordset "" "" r2 with
      | .error e => ⟨2, ["usage_monthly.png"], some e⟩
      | .ok dfIng =>
        match plot_ingest_stats_check dfIng with
        | .error e => ⟨2, ["usage_monthly.png"], some e⟩
        | .ok _ =>
          match fetch_use_stats recordset "" "" r3 with
          | .error e => ⟨3, ["usage_monthly.png", "ingest_metrics.png"], some e⟩
          | .ok dfUse =>
            match plot_ratios_check dfUse with
            | .error e => ⟨3, ["usage_monthly.png", "ingest_metrics.png"], some e⟩
            | .ok _ =>
              match plot_annual_summary_check dfUse with
              | .error e =>
                ⟨3, ["usage_monthly.png", "ingest_metrics.png", "usage_ratios.png"], some e⟩
              | .ok _ => ⟨3, allCharts, none⟩

/-! ## Helper lemmas -/

theorem raise_for_status_ok {r : Response} (hs : r.status < 400) :
    raise_for_status r = .ok () := by
  unfold raise_for_status
  rw [if_neg (by omega)]

theorem monthlyRows_ne_nil {recordset : String}
    {dates : List (String × RecMap)} (hne : dates ≠ []) :
    (monthlyRows recordset dates).isEmpty = false := by
  unfold monthlyRows
  cases dates with
  | nil => exact absurd rfl hne
  | cons x xs => simp [List.isEmpty]

theorem fetch_monthly_ok {recordset min_date : String}
    {resp : Response} (hs : resp.status < 400) (hne : resp.dates ≠ []) :
    fetch_monthly_usage recordset min_date resp =
      .ok (List.insertionSort rowLe (monthlyRows recordset resp.dates)) := by
  unfold fetch_monthly_usage
  rw [raise_for_status_ok hs]
  show (if (monthlyRows recordset resp.dates).isEmpty = true
          then (Except.error "KeyError" : Except String (List WideRow))
          else .ok (List.insertionSort rowLe (monthlyRows recordset resp.dates))) =
    .ok (List.insertionSort rowLe (monthlyRows recordset resp.dates))
  rw [monthlyRows_ne_nil hne]
  simp

/-! ## C9 -/

/-- C9: every row returned by `fetch_ingest_stats` has Metric `records`, a
date contributes a row only when its recordset mapping contains the
`records` metric, and the `Metric == "records"` filter of
`plot_ingest_stats` is the identity on such a table. -/
theorem ingest_rows_all_records (recordset min_date max_date : String)
    (resp : Response) (df : List LongRow)
    (h : fetch_ingest_stats recordset min_date max_date resp = .ok df) :
    (∀ r ∈ df, r.Metric = "records") ∧
    plot_ingest_filtered df = df ∧
    ∀ r ∈ df, ∃ e ∈ resp.dates, to_datetime e.1 = r.Date ∧
      ((e.2.lookup recordset).getD []).lookup "records" = some r.Count := by
  unfold fetch_ingest_stats at h
  cases hrs : raise_for_status resp with
  | error e => rw [hrs] at h; cases h
  | ok u =>
    rw [hrs] at h
    have hdf : df = resp.dates.flatMap fun e =>
        match ((e.2.lookup recordset).getD []).lookup "records" with
        | some c => [(⟨to_datetime e.1, "records", c⟩ : LongRow)]
        | none => [] := (Except.ok.inj h).symm
    subst hdf
    have hall : ∀ r ∈ (resp.dates.flatMap fun e =>
        match ((e.2.lookup recordset).getD []).lookup "records" with
        | some c => [(⟨to_datetime e.1, "records", c⟩ : LongRow)]
        | none => []),
        r.Metric = "records" ∧ ∃ e ∈ resp.dates, to_datetime e.1 = r.Date ∧
          ((e.2.lookup recordset).getD []).lookup "records" = some r.Count := by
      intro r hr
      rcases List.mem_flatMap.mp hr with ⟨e, he, hre⟩
      cases hlk : ((e.2.lookup recordset).getD []).lookup "records" with
      | none => rw [hlk] at hre; cases hre
      | some c =>
        rw [hlk] at hre
        rcases List.mem_singleton.mp hre with rfl
        exact ⟨rfl, e, he, rfl, hlk⟩
    refine ⟨fun r hr => (hall r hr).1, ?_, fun r hr => (hall r hr).2⟩
    apply List.filter_eq_self.mpr
    intro r hr
    simpa using (hall r hr).1

def respIngest : Response :=
  ⟨200, [("2020-01-01", [("rs1", [("records", 4), ("mediarecords", 2)])]),
         ("2021-01-01", [("rs2", [("records", 9)])])]⟩

theorem ingest_rows_all_records_witness :
    (∀ r ∈ [(⟨⟨2020, 1, 1⟩, "records", 4⟩ : LongRow)], r.Metric = "records") ∧
    plot_ingest_filtered [(⟨⟨2020, 1, 1⟩, "records", 4⟩ : LongRow)] =
      [(⟨⟨2020, 1, 1⟩, "records", 4⟩ : LongRow)] ∧
    ∀ r ∈ [(⟨⟨2020, 1, 1⟩, "records", 4⟩ : LongRow)],
      ∃ e ∈ respIngest.dates, to_datetime e.1 = r.Date ∧
        ((e.2.lookup "rs1").getD []).lookup "records" = some r.Count :=
  ingest_rows_all_records "rs1" "2015-01-16" "2025-01-01" respIngest
    [⟨⟨2020, 1, 1⟩, "records", 4⟩] (by decide)

/-! ## C4 -/

/-- C4: one cell of the year/metric `pivot_table` of `plot_annual_summary`
sums the Count of every row of that year and metric exactly once (for a
metric of the fixed summary list, which the `isin` filter keeps). -/
theorem annual_summary_sums_each_row_once (df : List LongRow) (y : Nat) (m : String)
    (hm : m ∈ summaryMetrics) :
    annual_summary_cell df y m =
      ((df.filter fun r => r.Date.year == y && r.Metric == m).map LongRow.Count).sum := by
  unfold annual_summary_cell summaryFiltered
  rw [List.filter_filter]
  refine congrArg List.sum (congrArg (List.map LongRow.Count) (List.filter_congr ?_))
  intro r _
  by_cases h : r.Metric = m
  · have hc : summaryMetrics.contains r.Metric = true := by
      rw [h]
      exact List.elem_iff.mpr hm
    rw [hc, Bool.and_true]
  · simp [h]

def exAnnual : List LongRow :=
  [⟨⟨2021, 1, 1⟩, "search", 3⟩, ⟨⟨2021, 6, 1⟩, "search", 5⟩]

theorem annual_summary_sums_each_row_once_witness :
    "search" ∈ summaryMetrics ∧ annual_summary_cell exAnnual 2021 "search" = 8 := by
  refine ⟨by decide, ?_⟩
  rw [annual_summary_sums_each_row_once exAnnual 2021 "search" (by decide)]
  decide

/-! ## C3 -/

def respMissingDl : Response :=
  ⟨200, [("2021-01-01", [("rs1", [("search", 5), ("download", 2)])]),
         ("2021-02-01", [("rs1", [("search", 7)])])]⟩

/-- C3 counterexample: the 2021-02-01 row of the monthly wide table, whose
recordset mapping lacks "download", carries no "download" value at all
(NaN in the frame), not the value 0, although "download" is a column of
the frame. -/
theorem monthly_missing_metric_not_zero :
    fetch_monthly_usage "rs1" "2021-01-01" respMissingDl =
      .ok [⟨⟨2021, 1, 1⟩, [("search", 5), ("download", 2)]⟩,
           ⟨⟨2021, 2, 1⟩, [("search", 7)]⟩] ∧
    "download" ∈ tableColumns [⟨⟨2021, 1, 1⟩, [("search", 5), ("download", 2)]⟩,
           ⟨⟨2021, 2, 1⟩, [("search", 7)]⟩] ∧
    (⟨⟨2021, 2, 1⟩, [("search", 7)]⟩ : WideRow).metrics.lookup "download" ≠ some 0 := by
  decide

/-- C3 amended: for a date whose recordset mapping is present but lacks a
metric, the wide table contains a row for that date whose cell for the
metric is absent (NaN in the frame), rather than zero. -/
theorem monthly_missing_metric_cell_absent (recordset min_date m dt : String)
    (recs : RecMap) (resp : Response)
    (hs : resp.status < 400)
    (he : (dt, recs) ∈ resp.dates)
    (hmiss : ((recs.lookup recordset).getD []).lookup m = none) :
    ∃ t, fetch_monthly_usage recordset min_date resp = .ok t ∧
      ∃ row ∈ t, row.Date = to_datetime dt ∧ row.metrics.lookup m = none := by
  refine ⟨_, fetch_monthly_ok hs (List.ne_nil_of_mem he), ?_⟩
  refine ⟨⟨to_datetime dt, (recs.lookup recordset).getD []⟩, ?_, rfl, hmiss⟩
  rw [List.mem_insertionSort]
  exact List.mem_map.mpr ⟨(dt, recs), he, rfl⟩

def respMissingDl2 : Response :=
  ⟨200, [("2022-03-01", [("rs7", [("search", 11)])])]⟩

theorem monthly_missing_metric_cell_absent_witness :
    ∃ t, fetch_monthly_usage "rs7" "2022-01-01" respMissingDl2 = .ok t ∧
      ∃ row ∈ t, row.Date = to_datetime "2022-03-01" ∧
        row.metrics.lookup "download" = none :=
  monthly_missing_metric_cell_absent "rs7" "2022-01-01" "download" "2022-03-01"
    [("rs7", [("search", 11)])] respMissingDl2 (by decide) (by decide) (by decide)

/-! ## C6 -/

def respMissingRs : Response :=
  ⟨200, [("2021-01-01", [("rs1", [("search", 5)])]),
         ("2021-02-01", [("rs9", [("search", 7)])])]⟩

/-- C6 counterexample: for the date 2021-02-01, whose mapping lacks the
requested recordset key "rs1", a row IS contributed (so "no row" fails)
and that row is not zero-filled: the frame has a "search" column, yet the
row's "search" cell is absent (NaN), not 0 (so "zero-filled" fails too). -/
theorem monthly_missing_recordset_not_zero_filled :
    fetch_monthly_usage "rs1" "2021-01-01" respMissingRs =
      .ok [⟨⟨2021, 1, 1⟩, [("search", 5)]⟩, ⟨⟨2021, 2, 1⟩, []⟩] ∧
    "search" ∈ tableColumns [⟨⟨2021, 1, 1⟩, [("search", 5)]⟩, ⟨⟨2021, 2, 1⟩, []⟩] ∧
    (⟨⟨2021, 2, 1⟩, []⟩ : WideRow) ∈
      [⟨⟨2021, 1, 1⟩, [("search", 5)]⟩, ⟨⟨2021, 2, 1⟩, []⟩] ∧
    (⟨⟨2021, 2, 1⟩, []⟩ : WideRow).metrics.lookup "search" ≠ some 0 := by
  decide

/-- C6 amended: for a date whose mapping lacks the requested recordset key,
`fetch_monthly_usage` contributes a date-only row: the row is present in
the wide table and every one of its metric cells is absent (NaN), so the
date is neither dropped nor zero-filled. -/
theorem monthly_missing_recordset_date_only_row (recordset min_date dt : String)
    (recs : RecMap) (resp : Response)
    (hs : resp.status < 400) (he : (dt, recs) ∈ resp.dates)
    (hnone : recs.lookup recordset = none) :
    ∃ t, fetch_monthly_usage recordset min_date resp = .ok t ∧
      (⟨to_datetime dt, []⟩ : WideRow) ∈ t ∧
      ∀ m : String, (⟨to_datetime dt, []⟩ : WideRow).metrics.lookup m = none := by
  refine ⟨_, fetch_monthly_ok hs (List.ne_nil_of_mem he), ?_, fun m => rfl⟩
  rw [List.mem_insertionSort]
  refine List.mem_map.mpr ⟨(dt, recs), he, ?_⟩
  rw [show (recs.lookup recordset).getD [] = [] by rw [hnone]; rfl]

def respMissingRs2 : Response :=
  ⟨200, [("2023-05-01", [("other", [("search", 3)])])]⟩

theorem monthly_missing_recordset_date_only_row_witness :
    ∃ t, fetch_monthly_usage "rs1" "2023-01-01" respMissingRs2 = .ok t ∧
      (⟨to_datetime "2023-05-01", []⟩ : WideRow) ∈ t ∧
      ∀ m : String, (⟨to_datetime "2023-05-01", []⟩ : WideRow).metrics.lookup m = none :=
  monthly_missing_recordset_date_only_row "rs1" "2023-01-01" "2023-05-01"
    [("other", [("search", 3)])] respMissingRs2 (by decide) (by decide) (by decide)

/-! ## C1 -/

def respEmpty : Response := ⟨200, []⟩

/-- C1 counterexample: on a well-formed response whose "dates" mapping is
empty (N = 0 distinct date keys), `fetch_monthly_usage` does not return a
0-row wide table: `pd.DataFrame([])` has no columns at all, so
`sort_values("Date")` raises `KeyError`. -/
theorem monthly_empty_dates_keyerror :
    fetch_monthly_usage "rs1" "2021-01-01" respEmpty = .error "KeyError" := by
  decide

/-- C1 amended: for a well-formed response with N distinct date keys and
N at least 1, the monthly fetch returns a wide table with exactly N rows,
one per date (the rows' parsed dates are a permutation of the parsed date
keys), sorted ascending by the parsed Date value; for N = 0 the code
instead raises `KeyError` (see the counterexample). -/
theorem monthly_wide_rows_sorted (recordset min_date : String) (resp : Response)
    (hs : resp.status < 400) (hne : resp.dates ≠ [])
    (hkeys : (resp.dates.map Prod.fst).Nodup) :
    ∃ t, fetch_monthly_usage recordset min_date resp = .ok t ∧
      t.length = resp.dates.length ∧
      List.Sorted rowLe t ∧
      List.Perm (t.map WideRow.Date) (resp.dates.map fun e => to_datetime e.1) := by
  refine ⟨_, fetch_monthly_ok hs hne, ?_, ?_, ?_⟩
  · rw [List.length_insertionSort]
    unfold monthlyRows
    rw [List.length_map]
  · exact List.sorted_insertionSort rowLe _
  · have hp := (List.perm_insertionSort rowLe (monthlyRows recordset resp.dates)).map
      WideRow.Date
    refine hp.trans ?_
    unfold monthlyRows
    rw [List.map_map]
    exact List.Perm.refl _

def respMonthly : Response :=
  ⟨200, [("2021-02-01", [("rs1", [("search", 7), ("download", 1)])]),
         ("2021-01-01", [("rs1", [("search", 10), ("download", 2)])])]⟩

theorem monthly_wide_rows_sorted_witness :
    ∃ t, fetch_monthly_usage "rs1" "2021-01-01" respMonthly = .ok t ∧
      t.length = respMonthly.dates.length ∧
      List.Sorted rowLe t ∧
      List.Perm (t.map WideRow.Date) (respMonthly.dates.map fun e => to_datetime e.1) :=
  monthly_wide_rows_sorted "rs1" "2021-01-01" respMonthly (by decide) (by decide) (by decide)

/-! ## C10 -/

theorem nodup_pairs_use (recordset : String) (dates : List (String × RecMap))
    (hd : (dates.map fun e => to_datetime e.1).Nodup)
    (hm : ∀ e ∈ dates, (((e.2.lookup recordset).getD []).map Prod.fst).Nodup) :
    ((dates.flatMap fun e =>
        ((e.2.lookup recordset).getD []).map fun q =>
          (⟨to_datetime e.1, q.1, q.2⟩ : LongRow)).map
      fun r => (r.Date, r.Metric)).Nodup := by
  induction dates with
  | nil => simp
  | cons e t ih =>
    rw [List.map_cons, List.nodup_cons] at hd
    rw [List.flatMap_cons, List.map_append, List.nodup_append]
    refine ⟨?_, ?_, ?_⟩
    · rw [List.map_map]
      have hcomp : ((fun r : LongRow => (r.Date, r.Metric)) ∘
          fun q : String × Int => (⟨to_datetime e.1, q.1, q.2⟩ : LongRow)) =
          (fun mname => (to_datetime e.1, mname)) ∘ Prod.fst := rfl
      rw [hcomp, ← List.map_map]
      refine List.Nodup.map ?_ (hm e (List.mem_cons_self e t))
      intro a b hab
      exact ((Prod.mk.injEq _ _ _ _).mp hab).2
    · exact ih hd.2 fun e2 he2 => hm e2 (List.mem_cons_of_mem e he2)
    · intro a ha hb
      rcases List.mem_map.mp ha with ⟨r, hr, rfl⟩
      rcases List.mem_map.mp hr with ⟨q, hq, rfl⟩
      rcases List.mem_map.mp hb with ⟨r2, hr2, hpair⟩
      rcases List.mem_flatMap.mp hr2 with ⟨e2, he2, hre2⟩
      rcases List.mem_map.mp hre2 with ⟨q2, hq2, rfl⟩
      have hdd : to_datetime e2.1 = to_datetime e.1 := congrArg Prod.fst hpair
      exact hd.1 (hdd ▸ List.mem_map.mpr ⟨e2, he2, rfl⟩)

/-- C10: on a well-formed response (distinct parsed date keys, per-date
JSON-unique metric keys), `fetch_use_stats` returns exactly one long row
per (date, metric) pair present under the requested recordset key; a date
whose mapping lacks the recordset key contributes zero rows, while the
monthly fetch on the same response still contributes a date-only row. -/
theorem use_stats_row_per_pair (recordset min_date max_date : String) (resp : Response)
    (hs : resp.status < 400)
    (hd : (resp.dates.map fun e => to_datetime e.1).Nodup)
    (hm : ∀ e ∈ resp.dates, (((e.2.lookup recordset).getD []).map Prod.fst).Nodup) :
    ∃ df, fetch_use_stats recordset min_date max_date resp = .ok df ∧
      (df.map fun r => (r.Date, r.Metric)).Nodup ∧
      (∀ d m c, (⟨d, m, c⟩ : LongRow) ∈ df ↔
        ∃ e ∈ resp.dates, to_datetime e.1 = d ∧ (m, c) ∈ (e.2.lookup recordset).getD []) ∧
      (∀ e ∈ resp.dates, e.2.lookup recordset = none →
        ∀ r ∈ df, r.Date ≠ to_datetime e.1) ∧
      (∀ e ∈ resp.dates, e.2.lookup recordset = none →
        ∃ t, fetch_monthly_usage recordset min_date resp = .ok t ∧
          (⟨to_datetime e.1, []⟩ : WideRow) ∈ t) := by
  have hfetch : fetch_use_stats recordset min_date max_date resp =
      .ok (resp.dates.flatMap fun e =>
        ((e.2.lookup recordset).getD []).map fun q =>
          (⟨to_datetime e.1, q.1, q.2⟩ : LongRow)) := by
    unfold fetch_use_stats
    rw [raise_for_status_ok hs]
  refine ⟨_, hfetch, nodup_pairs_use recordset resp.dates hd hm, ?_, ?_, ?_⟩
  · intro d m c
    constructor
    · intro hmem
      rcases List.mem_flatMap.mp hmem with ⟨e, he, hre⟩
      rcases List.mem_map.mp hre with ⟨q, hq, heq⟩
      injection heq with h1 h2 h3
      subst h1
      subst h2
      subst h3
      refine ⟨e, he, rfl, ?_⟩
      rw [Prod.mk.eta]
      exact hq
    · rintro ⟨e, he, rfl, hqm⟩
      exact List.mem_flatMap.mpr ⟨e, he, List.mem_map.mpr ⟨(m, c), hqm, rfl⟩⟩
  · intro e he hnone r hr hdate
    rcases List.mem_flatMap.mp hr with ⟨e2, he2, hre⟩
    rcases List.mem_map.mp hre with ⟨q, hq, heq⟩
    have hr_date : r.Date = to_datetime e2.1 := by rw [← heq]
    have he2e : e2 = e :=
      List.inj_on_of_nodup_map hd he2 he (by rw [← hr_date, hdate])
    subst he2e
    rw [hnone] at hq
    cases hq
  · intro e he hnone
    refine ⟨_, fetch_monthly_ok hs (List.ne_nil_of_mem he), ?_⟩
    rw [List.mem_insertionSort]
    refine List.mem_map.mpr ⟨e, he, ?_⟩
    show (⟨to_datetime e.1, (e.2.lookup recordset).getD []⟩ : WideRow) = _
    rw [hnone]
    rfl

def respUse : Response :=
  ⟨200, [("2020-01-01", [("rs1", [("search", 4), ("download", 1)])]),
         ("2021-01-01", [("zz", [("search", 9)])])]⟩

theorem use_stats_row_per_pair_witness :
    ∃ df, fetch_use_stats "rs1" "2015-01-16" "2025-01-01" respUse = .ok df ∧
      (df.map fun r => (r.Date, r.Metric)).Nodup ∧
      (∀ d m c, (⟨d, m, c⟩ : LongRow) ∈ df ↔
        ∃ e ∈ respUse.dates, to_datetime e.1 = d ∧ (m, c) ∈ (e.2.lookup "rs1").getD []) ∧
      (∀ e ∈ respUse.dates, e.2.lookup "rs1" = none →
        ∀ r ∈ df, r.Date ≠ to_datetime e.1) ∧
      (∀ e ∈ respUse.dates, e.2.lookup "rs1" = none →
        ∃ t, fetch_monthly_usage "rs1" "2015-01-16" respUse = .ok t ∧
          (⟨to_datetime e.1, []⟩ : WideRow) ∈ t) :=
  use_stats_row_per_pair "rs1" "2015-01-16" "2025-01-01" respUse
    (by decide) (by decide) (by decide)

/-! ## Pivot helpers -/

theorem pivot_ok {df : List LongRow} (hne : df ≠ [])
    (hnd : (df.map fun r => (r.Date, r.Metric)).Nodup) :
    pivot_fillna0 df = .ok ((pivotIndex df).map (mkPivotRow df)) := by
  unfold pivot_fillna0
  rw [if_neg (by simp [List.isEmpty_iff, hne]), if_pos hnd]

theorem lookup_map_graph (v : String → Int) (cols : List String) (m : String)
    (hm : m ∈ cols) :
    (cols.map fun c => (c, v c)).lookup m = some (v m) := by
  induction cols with
  | nil => cases hm
  | cons c cs ih =>
    by_cases h : m = c
    · subst h
      simp [List.lookup]
    · rcases List.mem_cons.mp hm with h2 | h2
      · exact absurd h2 h
      · have hb : (m == c) = false := by simp [h]
        simp [List.lookup, hb, ih h2]

theorem wcell_mkPivotRow (df : List LongRow) (d : Timestamp) (m : String)
    (hm : m ∈ pivotColumns df) :
    wcell (mkPivotRow df d) m = (cellValue df d m).getD 0 := by
  unfold wcell mkPivotRow
  rw [lookup_map_graph _ _ _ hm]
  rfl

theorem replaceZeroWithOne_ne_zero (x : Int) : replaceZeroWithOne x ≠ 0 := by
  unfold replaceZeroWithOne
  by_cases h : x = 0 <;> simp [h]

theorem checkedDiv_replace (a b : Int) :
    checkedDiv a (replaceZeroWithOne b) =
      some ((a : Rat) / ((replaceZeroWithOne b : Int) : Rat)) := by
  unfold checkedDiv
  rw [if_neg (replaceZeroWithOne_ne_zero b)]

/-- The value of the three ratio columns at one pivoted row, as forced by
the clamp: numerator over clamped denominator. -/
def ratioOfRow (row : PivotRow) : RatioRow :=
  ⟨row.Date,
   ((wcell row "download" : Int) : Rat) /
     ((replaceZeroWithOne (wcell row "download_count") : Int) : Rat),
   ((wcell row "download" : Int) : Rat) /
     ((replaceZeroWithOne (wcell row "search_count") : Int) : Rat),
   ((wcell row "viewed_records" : Int) : Rat) /
     ((replaceZeroWithOne (wcell row "search_count") : Int) : Rat)⟩

theorem rowRatios_eq (row : PivotRow) : rowRatios row = some (ratioOfRow row) := by
  unfold rowRatios ratioOfRow
  rw [checkedDiv_replace, checkedDiv_replace, checkedDiv_replace]

theorem ratioRows_ok (w : List PivotRow) : ratioRows w = .ok (w.map ratioOfRow) := by
  induction w with
  | nil => rfl
  | cons row rest ih =>
    rw [List.map_cons]
    unfold ratioRows
    rw [rowRatios_eq, ih]

/-! ## C2 -/

/-- C2: whenever the ratio computation of `plot_ratios` runs (unique
(Date, Metric) pairs, the four metric columns present), it succeeds — the
clamped denominator is never zero, so no division error can arise — and at
every date whose zero-filled denominator metric is 0 the computed ratio
equals the numerator value for that date. -/
theorem ratio_zero_denominator_clamp (df : List LongRow)
    (hnd : (df.map fun r => (r.Date, r.Metric)).Nodup)
    (h1 : "download" ∈ pivotColumns df) (h2 : "download_count" ∈ pivotColumns df)
    (h3 : "search_count" ∈ pivotColumns df) (h4 : "viewed_records" ∈ pivotColumns df) :
    ∃ rr, plot_ratios_compute df = .ok rr ∧
      ∀ d ∈ pivotIndex df, ∃ r ∈ rr, r.Date = d ∧
        ((cellValue df d "download_count").getD 0 = 0 →
          r.dl = (((cellValue df d "download").getD 0 : Int) : Rat)) ∧
        ((cellValue df d "search_count").getD 0 = 0 →
          r.sd = (((cellValue df d "download").getD 0 : Int) : Rat) ∧
          r.vs = (((cellValue df d "viewed_records").getD 0 : Int) : Rat)) := by
  have hne : df ≠ [] := by
    rintro rfl
    simp [pivotColumns] at h1
  have hplot : plot_ratios_compute df =
      .ok (((pivotIndex df).map (mkPivotRow df)).map ratioOfRow) := by
    unfold plot_ratios_compute
    rw [pivot_ok hne hnd]
    show (if "download" ∈ pivotColumns df ∧ "download_count" ∈ pivotColumns df ∧
        "search_count" ∈ pivotColumns df ∧ "viewed_records" ∈ pivotColumns df then
        ratioRows ((pivotIndex df).map (mkPivotRow df))
      else .error "KeyError") = _
    rw [if_pos ⟨h1, h2, h3, h4⟩, ratioRows_ok]
  refine ⟨_, hplot, ?_⟩
  intro d hd
  refine ⟨ratioOfRow (mkPivotRow df d),
    List.mem_map.mpr ⟨mkPivotRow df d, List.mem_map.mpr ⟨d, hd, rfl⟩, rfl⟩, rfl, ?_, ?_⟩
  · intro hz
    show ((wcell (mkPivotRow df d) "download" : Int) : Rat) /
        ((replaceZeroWithOne (wcell (mkPivotRow df d) "download_count") : Int) : Rat) = _
    rw [wcell_mkPivotRow df d "download_count" h2, hz]
    rw [show replaceZeroWithOne 0 = 1 from rfl]
    rw [wcell_mkPivotRow df d "download" h1]
    rw [Int.cast_one, div_one]
  · intro hz
    constructor
    · show ((wcell (mkPivotRow df d) "download" : Int) : Rat) /
          ((replaceZeroWithOne (wcell (mkPivotRow df d) "search_count") : Int) : Rat) = _
      rw [wcell_mkPivotRow df d "search_count" h3, hz]
      rw [show replaceZeroWithOne 0 = 1 from rfl]
      rw [wcell_mkPivotRow df d "download" h1]
      rw [Int.cast_one, div_one]
    · show ((wcell (mkPivotRow df d) "viewed_records" : Int) : Rat) /
          ((replaceZeroWithOne (wcell (mkPivotRow df d) "search_count") : Int) : Rat) = _
      rw [wcell_mkPivotRow df d "search_count" h3, hz]
      rw [show replaceZeroWithOne 0 = 1 from rfl]
      rw [wcell_mkPivotRow df d "viewed_records" h4]
      rw [Int.cast_one, div_one]

def dfRatios : List LongRow :=
  [⟨⟨2020, 1, 1⟩, "download", 5⟩, ⟨⟨2020, 1, 1⟩, "download_count", 0⟩,
   ⟨⟨2020, 1, 1⟩, "search_count", 0⟩, ⟨⟨2020, 1, 1⟩, "viewed_records", 3⟩]

theorem ratio_zero_denominator_clamp_witness :
    ∃ rr, plot_ratios_compute dfRatios = .ok rr ∧
      ∀ d ∈ pivotIndex dfRatios, ∃ r ∈ rr, r.Date = d ∧
        ((cellValue dfRatios d "download_count").getD 0 = 0 →
          r.dl = (((cellValue dfRatios d "download").getD 0 : Int) : Rat)) ∧
        ((cellValue dfRatios d "search_count").getD 0 = 0 →
          r.sd = (((cellValue dfRatios d "download").getD 0 : Int) : Rat) ∧
          r.vs = (((cellValue dfRatios d "viewed_records").getD 0 : Int) : Rat)) :=
  ratio_zero_denominator_clamp dfRatios (by decide) (by decide) (by decide)
    (by decide) (by decide)

/-! ## C5 -/

def respDup : Response :=
  ⟨200, [("2020-1-1", [("rs1", [("download", 1)])]),
         ("2020-01-01", [("rs1", [("download", 2)])])]⟩

/-- C5 counterexample: a long table produced by `fetch_use_stats` can hold
a duplicated (Date, Metric) pair — here two distinct JSON date keys,
`2020-1-1` and `2020-01-01`, parse to the same timestamp — and on such a
table the pivot step of `plot_ratios` does not succeed: `df.pivot` raises
`ValueError`, so its error branch is reachable. -/
theorem use_stats_duplicate_pair_pivot_fails :
    fetch_use_stats "rs1" "2015-01-16" "2025-01-01" respDup =
      .ok [⟨⟨2020, 1, 1⟩, "download", 1⟩, ⟨⟨2020, 1, 1⟩, "download", 2⟩] ∧
    pivot_fillna0 [⟨⟨2020, 1, 1⟩, "download", 1⟩, ⟨⟨2020, 1, 1⟩, "download", 2⟩] =
      .error "ValueError: Index contains duplicate entries, cannot reshape" := by
  decide

/-- C5 amended: the pivot step of `plot_ratios` succeeds exactly on long
tables with no duplicate (Date, Metric) pair. On a table produced by
`fetch_use_stats` from a response whose date keys parse to distinct
timestamps (and whose per-date metric keys are JSON-unique), with at least
one row, the pairs are distinct, so the error branch is unreachable and
the pivot yields a unique row per Date, metrics absent for a given date
zero-filled; a duplicated pair instead makes the pivot raise. -/
theorem use_stats_pivot_unique_rows (recordset min_date max_date : String)
    (resp : Response) (hs : resp.status < 400)
    (hd : (resp.dates.map fun e => to_datetime e.1).Nodup)
    (hm : ∀ e ∈ resp.dates, (((e.2.lookup recordset).getD []).map Prod.fst).Nodup)
    (hne : ∃ e ∈ resp.dates, (e.2.lookup recordset).getD [] ≠ []) :
    ∃ df w, fetch_use_stats recordset min_date max_date resp = .ok df ∧
      pivot_fillna0 df = .ok w ∧
      (w.map PivotRow.Date).Nodup ∧
      ∀ row ∈ w, ∀ m ∈ pivotColumns df,
        row.cells.lookup m = some ((cellValue df row.Date m).getD 0) := by
  have hfetch : fetch_use_stats recordset min_date max_date resp =
      .ok (resp.dates.flatMap fun e =>
        ((e.2.lookup recordset).getD []).map fun q =>
          (⟨to_datetime e.1, q.1, q.2⟩ : LongRow)) := by
    unfold fetch_use_stats
    rw [raise_for_status_ok hs]
  have hdfne : (resp.dates.flatMap fun e =>
      ((e.2.lookup recordset).getD []).map fun q =>
        (⟨to_datetime e.1, q.1, q.2⟩ : LongRow)) ≠ [] := by
    rcases hne with ⟨e, he, hene⟩
    rcases List.exists_mem_of_ne_nil _ hene with ⟨q, hq⟩
    exact List.ne_nil_of_mem
      (List.mem_flatMap.mpr ⟨e, he, List.mem_map.mpr ⟨q, hq, rfl⟩⟩)
  have hpairs := nodup_pairs_use recordset resp.dates hd hm
  refine ⟨_, _, hfetch, pivot_ok hdfne hpairs, ?_, ?_⟩
  · rw [List.map_map]
    have hid : (PivotRow.Date ∘ mkPivotRow (resp.dates.flatMap fun e =>
        ((e.2.lookup recordset).getD []).map fun q =>
          (⟨to_datetime e.1, q.1, q.2⟩ : LongRow))) = fun d => d := rfl
    rw [hid, List.map_id']
    exact List.nodup_dedup _
  · intro row hrow m hmcol
    rcases List.mem_map.mp hrow with ⟨d, _, rfl⟩
    show (mkPivotRow _ d).cells.lookup m = _
    unfold mkPivotRow
    rw [lookup_map_graph _ _ _ hmcol]

def respUse5 : Response :=
  ⟨200, [("2020-01-01", [("rs1", [("download", 1), ("download_count", 0)])]),
         ("2021-01-01", [("rs1", [("download", 6)])])]⟩

theorem use_stats_pivot_unique_rows_witness :
    ∃ df w, fetch_use_stats "rs1" "2015-01-16" "2025-01-01" respUse5 = .ok df ∧
      pivot_fillna0 df = .ok w ∧
      (w.map PivotRow.Date).Nodup ∧
      ∀ row ∈ w, ∀ m ∈ pivotColumns df,
        row.cells.lookup m = some ((cellValue df row.Date m).getD 0) :=
  use_stats_pivot_unique_rows "rs1" "2015-01-16" "2025-01-01" respUse5
    (by decide) (by decide) (by decide)
    ⟨("2020-01-01", [("rs1", [("download", 1), ("download_count", 0)])]), by decide, by decide⟩

/-! ## C7 -/

theorem find_beq_self {β : Type} [DecidableEq β] (l : List β) (a : β) (ha : a ∈ l) :
    (l.find? fun x => x == a) = some a := by
  induction l with
  | nil => cases ha
  | cons x t ih =>
    by_cases hx : x = a
    · subst hx
      rw [List.find?_cons_of_pos _ (by simp)]
    · rw [List.find?_cons_of_neg _ (by simp [hx])]
      refine ih ?_
      rcases List.mem_cons.mp ha with h | h
      · exact absurd h.symm hx
      · exact h

theorem sum_filter_key {α β : Type} [DecidableEq β] (key : α → β) (v : α → Int)
    (a : β) (l : List α) (h : (l.map key).Nodup) :
    ((l.filter fun x => key x == a).map v).sum =
      ((l.find? fun x => key x == a).map v).getD 0 := by
  induction l with
  | nil => rfl
  | cons x t ih =>
    rw [List.map_cons, List.nodup_cons] at h
    by_cases hx : key x = a
    · rw [List.filter_cons_of_pos (by simp [hx]), List.find?_cons_of_pos _ (by simp [hx])]
      have ht : t.filter (fun y => key y == a) = [] := by
        apply List.filter_eq_nil_iff.mpr
        intro y hy hpy
        have hya : key y = a := by simpa using hpy
        exact h.1 (List.mem_map.mpr ⟨y, hy, hya.trans hx.symm⟩)
      rw [List.map_cons, List.sum_cons, ht]
      simp
    · rw [List.filter_cons_of_neg (by simp [hx]), List.find?_cons_of_neg _ (by simp [hx])]
      exact ih h.2

theorem sum_map_eq_single {β : Type} [DecidableEq β] (l : List β) (hl : l.Nodup)
    (g : β → Int) (d : β) (f : β → Int)
    (hf : ∀ x ∈ l, f x = if x = d then g x else 0) :
    (l.map f).sum = if d ∈ l then g d else 0 := by
  induction l with
  | nil => simp
  | cons x t ih =>
    rw [List.nodup_cons] at hl
    rw [List.map_cons, List.sum_cons, hf x (List.mem_cons_self x t)]
    by_cases hx : x = d
    · subst hx
      rw [if_pos rfl, if_pos (List.mem_cons_self x t)]
      have hz : (t.map f).sum = 0 := by
        apply List.sum_eq_zero
        intro u hu
        rcases List.mem_map.mp hu with ⟨y, hy, rfl⟩
        rw [hf y (List.mem_cons_of_mem x hy), if_neg]
        intro hyd
        exact hl.1 (hyd ▸ hy)
      rw [hz, add_zero]
    · rw [if_neg hx, zero_add,
        ih hl.2 fun y hy => hf y (List.mem_cons_of_mem x hy)]
      by_cases hd2 : d ∈ t
      · rw [if_pos hd2, if_pos (List.mem_cons_of_mem x hd2)]
      · rw [if_neg hd2, if_neg]
        intro hmem
        rcases List.mem_cons.mp hmem with hcase | hcase
        · exact hx hcase.symm
        · exact hd2 hcase

theorem totalCount_of_nodup (df : List LongRow) (d : Timestamp) (m : String)
    (hnd : (df.map fun r => (r.Date, r.Metric)).Nodup) :
    totalCount df d m = (cellValue df d m).getD 0 := by
  unfold cellValue
  induction df with
  | nil => rfl
  | cons x t ih =>
    rw [List.map_cons, List.nodup_cons] at hnd
    by_cases hx : x.Date = d ∧ x.Metric = m
    · unfold totalCount
      rw [List.filter_cons_of_pos (by simp [hx.1, hx.2]),
        List.find?_cons_of_pos _ (by simp [hx.1, hx.2])]
      have ht : t.filter (fun r => r.Date == d && r.Metric == m) = [] := by
        apply List.filter_eq_nil_iff.mpr
        intro y hy hpy
        have hym : y.Date = d ∧ y.Metric = m := by simpa using hpy
        exact hnd.1 (List.mem_map.mpr ⟨y, hy, by rw [hym.1, hym.2, hx.1, hx.2]⟩)
      rw [List.map_cons, List.sum_cons, ht]
      simp
    · unfold totalCount
      rw [List.filter_cons_of_neg (by simpa using hx),
        List.find?_cons_of_neg _ (by simpa using hx)]
      exact ih hnd.2

theorem cellValue_none_of_index (df : List LongRow) (d : Timestamp) (m : String)
    (hd : d ∉ pivotIndex df) : cellValue df d m = none := by
  unfold cellValue
  rw [List.find?_eq_none.mpr, Option.map_none']
  intro r hr hp
  have hp2 : r.Date = d ∧ r.Metric = m := by simpa using hp
  refine hd ?_
  unfold pivotIndex
  exact List.mem_dedup.mpr (List.mem_map.mpr ⟨r, hr, hp2.1⟩)

theorem cellValue_none_of_cols (df : List LongRow) (d : Timestamp) (m : String)
    (hm : m ∉ pivotColumns df) : cellValue df d m = none := by
  unfold cellValue
  rw [List.find?_eq_none.mpr, Option.map_none']
  intro r hr hp
  have hp2 : r.Date = d ∧ r.Metric = m := by simpa using hp
  refine hm ?_
  unfold pivotColumns
  exact List.mem_dedup.mpr (List.mem_map.mpr ⟨r, hr, hp2.2⟩)

theorem totalCount_flattenWide (w : List PivotRow) (d : Timestamp) (m : String) :
    totalCount (flattenWide w) d m =
      (w.map fun row =>
        ((row.cells.filter fun c => row.Date == d && c.1 == m).map Prod.snd).sum).sum := by
  induction w with
  | nil => rfl
  | cons row rest ih =>
    rw [show flattenWide (row :: rest) =
        (row.cells.map fun c => (⟨row.Date, c.1, c.2⟩ : LongRow)) ++ flattenWide rest from by
      unfold flattenWide
      rw [List.flatMap_cons]]
    unfold totalCount
    rw [List.filter_append, List.map_append, List.sum_append, List.map_cons, List.sum_cons]
    congr 1
    rw [List.filter_map, List.map_map]
    try rfl

theorem cells_filter_sum (df : List LongRow) (d2 d : Timestamp) (m : String) :
    (((mkPivotRow df d2).cells.filter fun c => d2 == d && c.1 == m).map Prod.snd).sum =
      if d2 = d then
        (((pivotColumns df).filter fun m2 => m2 == m).map
          fun m2 => (cellValue df d2 m2).getD 0).sum
      else 0 := by
  unfold mkPivotRow
  by_cases hdd : d2 = d
  · rw [if_pos hdd]
    have hpred : ∀ c ∈ ((pivotColumns df).map fun m2 => (m2, (cellValue df d2 m2).getD 0)),
        (d2 == d && c.1 == m) = (c.1 == m) := by
      intro c _
      rw [show (d2 == d) = true by simp [hdd], Bool.true_and]
    rw [List.filter_congr hpred, List.filter_map, List.map_map]
    rfl
  · rw [if_neg hdd]
    rw [show ((pivotColumns df).map fun m2 => (m2, (cellValue df d2 m2).getD 0)).filter
        (fun c => d2 == d && c.1 == m) = [] from List.filter_eq_nil_iff.mpr ?_]
    · rfl
    · intro c _ hc
      rw [show (d2 == d) = false by simp [hdd], Bool.false_and] at hc
      cases hc

/-- C7 counterexample: on a long table with a duplicated (Date, Metric)
pair the pivot step raises `ValueError` instead of summing the pair, so no
wide form is produced at all and the pivot/flatten round trip cannot
reproduce the pair's total (which here is 3 + 4 = 7). -/
theorem pivot_roundtrip_fails_on_duplicates :
    pivot_fillna0 [(⟨⟨2020, 1, 1⟩, "search", 3⟩ : LongRow), ⟨⟨2020, 1, 1⟩, "search", 4⟩] =
      .error "ValueError: Index contains duplicate entries, cannot reshape" ∧
    totalCount [(⟨⟨2020, 1, 1⟩, "search", 3⟩ : LongRow), ⟨⟨2020, 1, 1⟩, "search", 4⟩]
      ⟨2020, 1, 1⟩ "search" = 7 := by
  decide

/-- C7 amended: for every nonempty long table with no duplicate
(Date, Metric) pair — the condition under which the pivot of `plot_ratios`
runs at all — pivoting to zero-filled wide form and flattening back to
long form reproduces the original total count of every (date, metric)
pair; on a duplicated pair the pivot instead raises. -/
theorem pivot_flatten_preserves_totals (df : List LongRow) (hne : df ≠ [])
    (hnd : (df.map fun r => (r.Date, r.Metric)).Nodup) :
    ∃ w, pivot_fillna0 df = .ok w ∧
      ∀ d m, totalCount (flattenWide w) d m = totalCount df d m := by
  refine ⟨_, pivot_ok hne hnd, ?_⟩
  intro d m
  rw [totalCount_flattenWide, List.map_map]
  have hsum := sum_map_eq_single (pivotIndex df) (List.nodup_dedup _)
    (fun d2 => (((pivotColumns df).filter fun m2 => m2 == m).map
      fun m2 => (cellValue df d2 m2).getD 0).sum) d
    (fun d2 => (((mkPivotRow df d2).cells.filter fun c => d2 == d && c.1 == m).map
      Prod.snd).sum)
    (fun d2 _ => cells_filter_sum df d2 d m)
  refine Eq.trans hsum ?_
  rw [totalCount_of_nodup df d m hnd]
  by_cases hdi : d ∈ pivotIndex df
  · rw [if_pos hdi]
    have hcols := sum_filter_key (fun x => x) (fun m2 => (cellValue df d m2).getD 0) m
      (pivotColumns df) (by simpa using List.nodup_dedup (df.map LongRow.Metric))
    refine Eq.trans hcols ?_
    by_cases hmc : m ∈ pivotColumns df
    · rw [find_beq_self _ _ hmc]
      rfl
    · rw [List.find?_eq_none.mpr]
      · rw [cellValue_none_of_cols df d m hmc]
        rfl
      · intro x hx hbx
        exact hmc ((by simpa using hbx : x = m) ▸ hx)
  · rw [if_neg hdi, cellValue_none_of_index df d m hdi]
    rfl

def dfRound : List LongRow :=
  [⟨⟨2020, 1, 1⟩, "search", 3⟩, ⟨⟨2020, 1, 1⟩, "download", 2⟩,
   ⟨⟨2021, 1, 1⟩, "search", 5⟩]

theorem pivot_flatten_preserves_totals_witness :
    ∃ w, pivot_fillna0 dfRound = .ok w ∧
      ∀ d m, totalCount (flattenWide w) d m = totalCount dfRound d m :=
  pivot_flatten_preserves_totals dfRound (by decide) (by decide)

/-! ## C8 -/

theorem fetch_monthly_http_error (recordset min_date : String) (resp : Response)
    (h : 400 ≤ resp.status ∧ resp.status < 600) :
    fetch_monthly_usage recordset min_date resp = .error "HTTPError" := by
  unfold fetch_monthly_usage raise_for_status
  rw [if_pos h]

theorem fetch_ingest_http_error (recordset min_date max_date : String) (resp : Response)
    (h : 400 ≤ resp.status ∧ resp.status < 600) :
    fetch_ingest_stats recordset min_date max_date resp = .error "HTTPError" := by
  unfold fetch_ingest_stats raise_for_status
  rw [if_pos h]

theorem fetch_use_http_error (recordset min_date max_date : String) (resp : Response)
    (h : 400 ≤ resp.status ∧ resp.status < 600) :
    fetch_use_stats recordset min_date max_date resp = .error "HTTPError" := by
  unfold fetch_use_stats raise_for_status
  rw [if_pos h]

theorem fetch_monthly_no_http_error (recordset min_date : String) (resp : Response)
    (h : ¬(400 ≤ resp.status ∧ resp.status < 600)) :
    fetch_monthly_usage recordset min_date resp ≠ .error "HTTPError" := by
  unfold fetch_monthly_usage
  rw [show raise_for_status resp = .ok () from by
    unfold raise_for_status
    rw [if_neg h]]
  dsimp only
  split
  · decide
  · exact fun hc => Except.noConfusion hc

theorem fetch_ingest_no_http_error (recordset min_date max_date : String) (resp : Response)
    (h : ¬(400 ≤ resp.status ∧ resp.status < 600)) :
    fetch_ingest_stats recordset min_date max_date resp ≠ .error "HTTPError" := by
  unfold fetch_ingest_stats
  rw [show raise_for_status resp = .ok () from by
    unfold raise_for_status
    rw [if_neg h]]
  exact fun hc => Except.noConfusion hc

theorem fetch_use_no_http_error (recordset min_date max_date : String) (resp : Response)
    (h : ¬(400 ≤ resp.status ∧ resp.status < 600)) :
    fetch_use_stats recordset min_date max_date resp ≠ .error "HTTPError" := by
  unfold fetch_use_stats
  rw [show raise_for_status resp = .ok () from by
    unfold raise_for_status
    rw [if_neg h]]
  exact fun hc => Except.noConfusion hc

theorem main_result_cases (recordset : String) (r1 r2 r3 : Response) :
    (∃ k, (main recordset r1 r2 r3).charts = allCharts.take k) ∧
    ((main recordset r1 r2 r3).err.isSome → (main recordset r1 r2 r3).charts ≠ allCharts) ∧
    (main recordset r1 r2 r3).requests ≤ 3 ∧
    ((main recordset r1 r2 r3).err = none →
      (main recordset r1 r2 r3).requests = 3 ∧
      (main recordset r1 r2 r3).charts = allCharts) := by
  unfold main
  repeat' split
  all_goals {
    refine ⟨?_, fun hsome => ?_, by norm_num, fun hnone => ?_⟩
    · first
      | exact ⟨0, rfl⟩
      | exact ⟨1, rfl⟩
      | exact ⟨2, rfl⟩
      | exact ⟨3, rfl⟩
      | exact ⟨4, rfl⟩
    · first
      | exact absurd hsome (by decide)
      | simp [allCharts]
    · first
      | exact Option.noConfusion hnone
      | exact ⟨rfl, rfl⟩
  }

/-- C8: each fetcher consumes exactly one HTTP exchange (its single
`Response` argument); on a non-success status — 4xx/5xx, the only statuses
`raise_for_status` raises for — it fails immediately with `HTTPError` and
no retry, and on any other status it never raises `HTTPError`; in the
sequential body of `main` an earlier failure aborts the run before any
later chart: the charts written are always an initial segment of the full
chart list, a failed run never writes all four charts, at most three
requests are issued, and a clean run issues exactly three requests and
writes all four charts in order. -/
theorem main_sequential_abort (recordset : String) (r1 r2 r3 : Response) :
    (400 ≤ r1.status ∧ r1.status < 600 →
      ∀ md, fetch_monthly_usage recordset md r1 = .error "HTTPError") ∧
    (¬(400 ≤ r1.status ∧ r1.status < 600) →
      ∀ md, fetch_monthly_usage recordset md r1 ≠ .error "HTTPError") ∧
    (400 ≤ r2.status ∧ r2.status < 600 →
      ∀ md mx, fetch_ingest_stats recordset md mx r2 = .error "HTTPError") ∧
    (¬(400 ≤ r2.status ∧ r2.status < 600) →
      ∀ md mx, fetch_ingest_stats recordset md mx r2 ≠ .error "HTTPError") ∧
    (400 ≤ r3.status ∧ r3.status < 600 →
      ∀ md mx, fetch_use_stats recordset md mx r3 = .error "HTTPError") ∧
    (¬(400 ≤ r3.status ∧ r3.status < 600) →
      ∀ md mx, fetch_use_stats recordset md mx r3 ≠ .error "HTTPError") ∧
    (400 ≤ r1.status ∧ r1.status < 600 →
      main recordset r1 r2 r3 = ⟨1, [], some "HTTPError"⟩) ∧
    (∃ k, (main recordset r1 r2 r3).charts = allCharts.take k) ∧
    ((main recordset r1 r2 r3).err.isSome → (main recordset r1 r2 r3).charts ≠ allCharts) ∧
    (main recordset r1 r2 r3).requests ≤ 3 ∧
    ((main recordset r1 r2 r3).err = none →
      (main recordset r1 r2 r3).requests = 3 ∧
      (main recordset r1 r2 r3).charts = allCharts) := by
  have hcases := main_result_cases recordset r1 r2 r3
  refine ⟨fun h md => fetch_monthly_http_error recordset md r1 h,
    fun h md => fetch_monthly_no_http_error recordset md r1 h,
    fun h md mx => fetch_ingest_http_error recordset md mx r2 h,
    fun h md mx => fetch_ingest_no_http_error recordset md mx r2 h,
    fun h md mx => fetch_use_http_error recordset md mx r3 h,
    fun h md mx => fetch_use_no_http_error recordset md mx r3 h,
    fun h => ?_, hcases.1, hcases.2.1, hcases.2.2.1, hcases.2.2.2⟩
  unfold main
  rw [fetch_monthly_http_error recordset "" r1 h]

theorem main_sequential_abort_witness :
    fetch_monthly_usage "rs1" "2021-01-01" ⟨500, []⟩ = .error "HTTPError" ∧
    fetch_monthly_usage "rs1" "2021-01-01" ⟨600, []⟩ ≠ .error "HTTPError" ∧
    main "rs1" ⟨500, []⟩ ⟨200, []⟩ ⟨200, []⟩ = ⟨1, [], some "HTTPError"⟩ ∧
    ∃ k, (main "rs1" ⟨500, []⟩ ⟨200, []⟩ ⟨200, []⟩).charts = allCharts.take k := by
  have h := main_sequential_abort "rs1" ⟨500, []⟩ ⟨200, []⟩ ⟨200, []⟩
  have h6 := main_sequential_abort "rs1" ⟨600, []⟩ ⟨200, []⟩ ⟨200, []⟩
  exact ⟨h.1 (by decide) "2021-01-01", h6.2.1 (by decide) "2021-01-01",
    h.2.2.2.2.2.2.1 (by decide), h.2.2.2.2.2.2.2.1⟩

end UpdateCharts
